import Mathlib

/-!
Verification of the swii client core: the typed IPC command pipeline
(`src/lib/tauri/client.ts`, `src/lib/tauri/commands.ts`), the overlay
visibility coordinator (`src/lib/stores/overlay.svelte.ts`), and the
global-shortcut dispatcher (`src/routes/+page.svelte`), shallowly embedded
in Lean 4.

Promises are modelled by their settled outcome: `Except JSError a` is a
promise that either rejected with a JavaScript error value or resolved with
an `a`.  Side effects on the native layer (remote invocations, window
show/hide/focus requests, fired callbacks) are made explicit as event lists
returned alongside the result, and the coordinator's mutable fields become
an explicit state record threaded through each handler.
-/

namespace Swii

/-- A JavaScript `Error` object (the causes carried by rejected promises and
thrown exceptions).  As an object it is always truthy, which the embedding
relies on where the source tests `if (result.error)`. -/
structure JSError where
  message : String
deriving DecidableEq, Repr

/-- The JavaScript values that can be passed as a command's argument; `undef`
is the value of an omitted optional parameter. -/
inductive JSVal where
  | undef
  | null
  | bool (b : Bool)
  | num (n : Int)
  | str (s : String)
  | obj (fields : List (String × JSVal))

/-- JavaScript truthiness of a `JSVal`, as used by the source's
`args ? ... : ...` conditionals. -/
def JSVal.truthy : JSVal → Bool
  | .undef => false
  | .null => false
  | .bool b => b
  | .num n => n != 0
  | .str s => !s.isEmpty
  | .obj _ => true

/-- `CommandSuccess<T>` from `src/lib/tauri/client.ts`: the raw backend
envelope with `success: true` (`error` is `null` by the type contract). -/
structure CommandSuccess (T : Type) where
  data : T
  execution_time_ms : Nat
  timestamp : String
deriving DecidableEq, Repr

/-- `CommandFailure` from `src/lib/tauri/client.ts`: the raw backend envelope
with `success: false` (`data` is `null` by the type contract). -/
structure CommandFailure where
  error : String
  execution_time_ms : Nat
  timestamp : String
deriving DecidableEq, Repr

/-- `CommandResult<T> = CommandSuccess<T> | CommandFailure`, discriminated by
the `success` flag. -/
inductive CommandResult (T : Type) where
  | success (s : CommandSuccess T)
  | failure (f : CommandFailure)
deriving DecidableEq, Repr

/-- `Result<T>` as used by `flattenCommandResult`: the outcome shape produced
by the `tryCatch` helper, either a data variant (with `error: null`) or an
error variant carrying a thrown/rejected cause. -/
inductive Result (T : Type) where
  | ok (data : T)
  | err (cause : JSError)
deriving DecidableEq, Repr

/-- Modelled from the spec: the `tryCatch` helper (its file
`src/lib/utils/tryCatch.ts` is imported by `commands.ts` but absent from the
sources) — "await the call in a guarded scope; if the call raises/rejects,
classify it as `transportFailure` carrying the raised cause": a promise that
rejected becomes the error variant with that cause, a resolved promise
becomes the data variant. -/
def tryCatch {T : Type} (p : Except JSError T) : Result T :=
  match p with
  | .ok v => .ok v
  | .error e => .err e

/-- `FlatCommandResult<T>` from `src/lib/tauri/client.ts`: the normalized
discriminated union every caller consumes. -/
inductive FlatCommandResult (T : Type) where
  | success (data : T)
  | transport_error (error : JSError)
  | command_error (error : String)
deriving DecidableEq, Repr

/-- `flattenCommandResult` from `src/lib/tauri/commands.ts`:
`if (result.error) return transport_error; if (result.data.success) return
success(data.data); return command_error(data.error)`.  The `error` field,
when present, is an `Error` object and hence truthy. -/
def flattenCommandResult {T : Type} (result : Result (CommandResult T)) :
    FlatCommandResult T :=
  match result with
  | .err e => .transport_error e
  | .ok (.success s) => .success s.data
  | .ok (.failure f) => .command_error f.error

/-- The context error thrown by `makeCommandFn` when not in a Tauri
environment. -/
def tauriContextError : JSError :=
  ⟨"Tauri commands can only be executed in Tauri environment"⟩

/-- A record of a remote invocation crossing the process boundary:
`invoke(command_name)` or `invoke(command_name, { args })`. -/
inductive InvokeEvent where
  | invoke (command_name : String) (args : Option JSVal)

/-- The backend's behavior at the transport boundary: for a command name and
(possibly absent) argument envelope, the settled outcome of the `invoke`
promise — rejection with a transport cause, or resolution with the raw
four-field envelope. -/
def Backend (T : Type) := String → Option JSVal → Except JSError (CommandResult T)

/-- `makeCommandFn` from `src/lib/tauri/client.ts`: throws the context error
when `!isTauri()` (so the returned promise rejects before any invocation);
otherwise issues `invoke(command_name, { args })` when `args` is truthy and
`invoke(command_name)` otherwise.  Returns the promise outcome together with
the list of remote invocations that crossed the process boundary. -/
def makeCommandFn {T : Type} (isTauri : Bool) (backend : Backend T)
    (command_name : String) (args : JSVal) :
    Except JSError (CommandResult T) × List InvokeEvent :=
  if !isTauri then
    (.error tauriContextError, [])
  else if args.truthy then
    (backend command_name (some args), [.invoke command_name (some args)])
  else
    (backend command_name none, [.invoke command_name none])

/-- `defineCommand` from `src/lib/tauri/commands.ts`: the returned executor
takes an optional argument (`none` models a zero-argument call, `some v` a
call with explicit value `v`; JavaScript binds an omitted optional parameter
to `undefined`).  The source computes
`args ? commandFn(args) : commandFn()`, awaits through `tryCatch`, and
flattens.  Returns the normalized result and the invocations issued. -/
def defineCommand {T : Type} (isTauri : Bool) (backend : Backend T)
    (command_name : String) (args : Option JSVal) :
    FlatCommandResult T × List InvokeEvent :=
  let a : JSVal := match args with
    | none => .undef
    | some v => v
  let r :=
    if a.truthy then makeCommandFn isTauri backend command_name a
    else makeCommandFn isTauri backend command_name .undef
  (flattenCommandResult (tryCatch r.1), r.2)

/-- The coordinator's reactive fields in `OverlayStore`
(`src/lib/stores/overlay.svelte.ts`): the recorded visibility flag and the
two callback slots (modelled by whether a callback is registered, since the
source only tests them for null before firing). -/
structure OverlayState where
  isVisible : Bool
  onShowSet : Bool
  onHideSet : Bool
deriving DecidableEq, Repr

/-- A callback fired by the poll loop. -/
inductive CallbackEvent where
  | onShow
  | onHide
deriving DecidableEq, Repr

/-- A request issued to the native window layer. -/
inductive NativeReq where
  | winShow
  | winFocus
  | winHide
deriving DecidableEq, Repr

/-- `checkVisibility` from `OverlayStore.startVisibilityCheck`: awaits
`win.isVisible()` (outcome `read`); on success compares with the recorded
`isVisible`, and on a change records the new value and fires `onShow` when
now visible (if registered) else `onHide` when now hidden (if registered);
any thrown error is caught and logged, leaving state untouched and firing
nothing.  Returns the updated state and the callbacks fired. -/
def checkVisibility (read : Except JSError Bool) (s : OverlayState) :
    OverlayState × List CallbackEvent :=
  match read with
  | .error _ => (s, [])
  | .ok visible =>
    let wasVisible := s.isVisible
    if visible != wasVisible then
      let s' := { s with isVisible := visible }
      if visible && s.onShowSet then (s', [.onShow])
      else if !visible && s.onHideSet then (s', [.onHide])
      else (s', [])
    else (s, [])

/-- `OverlayStore.show()`: requests `win.show()` then `win.setFocus()`, each
awaited inside one try/catch that logs and absorbs errors.  `showOutcome`
and `focusOutcome` are the outcomes of those native calls.  Returns the
(unchanged) coordinator state and the native requests issued. -/
def showOverlay (showOutcome focusOutcome : Except JSError Unit) (s : OverlayState) :
    OverlayState × List NativeReq :=
  match showOutcome with
  | .error _ => (s, [.winShow])
  | .ok _ =>
    match focusOutcome with
    | .error _ => (s, [.winShow, .winFocus])
    | .ok _ => (s, [.winShow, .winFocus])

/-- `OverlayStore.hide()`: requests `win.hide()` inside a try/catch that logs
and absorbs errors. -/
def hideOverlay (hideOutcome : Except JSError Unit) (s : OverlayState) :
    OverlayState × List NativeReq :=
  match hideOutcome with
  | .error _ => (s, [.winHide])
  | .ok _ => (s, [.winHide])

/-- `OverlayStore.toggle()`: awaits a fresh `win.isVisible()` read
(`nativeRead` — not the cached `isVisible` flag) and calls `hide()` when the
read is visible, else `show()`; the surrounding try/catch logs and absorbs a
thrown read error, in which case nothing is issued. -/
def toggle (nativeRead : Except JSError Bool)
    (showOutcome focusOutcome hideOutcome : Except JSError Unit)
    (s : OverlayState) : OverlayState × List NativeReq :=
  match nativeRead with
  | .error _ => (s, [])
  | .ok visible =>
    if visible then hideOverlay hideOutcome s
    else showOverlay showOutcome focusOutcome s

/-- The native window layer honoring a request: `winShow` makes the window
visible, `winHide` hides it, `winFocus` leaves visibility unchanged. -/
def applyReq (nativeVisible : Bool) (r : NativeReq) : Bool :=
  match r with
  | .winShow => true
  | .winHide => false
  | .winFocus => nativeVisible

/-- One `toggle()` call run against a live native layer whose current
visibility is `native`: the fresh read returns `native`, the issued requests
are applied by the native layer in order.  Yields the new native visibility,
the coordinator state, and the requests issued. -/
def runToggle (native : Bool) (s : OverlayState) :
    Bool × OverlayState × List NativeReq :=
  let r := toggle (.ok native) (.ok ()) (.ok ()) (.ok ()) s
  (r.2.foldl applyReq native, r.1, r.2)

/-- The poll-loop lifecycle state around `OverlayStore`: `overlay` is the
coordinator's reactive state, `intervalId` the private timer handle (set
once by `startVisibilityCheck` after its initial awaited check),
`intervalActive` whether the interval timer is currently scheduled, and
`startupDone` whether the asynchronous `startVisibilityCheck` has reached
its `setInterval` call. -/
structure LoopState where
  overlay : OverlayState
  intervalId : Option Nat
  intervalActive : Bool
  startupDone : Bool
deriving DecidableEq, Repr

/-- The state at construction: `isVisible = false`, no callbacks, no timer,
startup pending. -/
def initLoopState : LoopState :=
  { overlay := { isVisible := false, onShowSet := false, onHideSet := false }
    intervalId := none
    intervalActive := false
    startupDone := false }

/-- Events ordering the coordinator's lifecycle on the single cooperative
thread. -/
inductive LoopAction where
  | finishStartup (id : Nat) (read : Except JSError Bool)
  | tick (read : Except JSError Bool)
  | destroy

/-- One lifecycle step.
`finishStartup id read`: the tail of the asynchronous
`startVisibilityCheck` — its initial awaited `checkVisibility` (with native
read outcome `read`) followed by `intervalId = setInterval(...)`, which
schedules the timer; it runs once.
`tick read`: a scheduled timer firing of `checkVisibility`; it executes only
while the interval is scheduled.
`destroy`: `if (intervalId !== null) clearInterval(intervalId)` — unschedules
the timer when a handle exists, and does not reset the handle. -/
def loopStep (st : LoopState) (a : LoopAction) : LoopState × List CallbackEvent :=
  match a with
  | .finishStartup id read =>
    if st.startupDone then (st, [])
    else
      let c := checkVisibility read st.overlay
      ({ st with overlay := c.1, intervalId := some id,
                 intervalActive := true, startupDone := true }, c.2)
  | .tick read =>
    if st.intervalActive then
      let c := checkVisibility read st.overlay
      ({ st with overlay := c.1 }, c.2)
    else (st, [])
  | .destroy =>
    match st.intervalId with
    | none => (st, [])
    | some _ => ({ st with intervalActive := false }, [])

/-- A key event delivered to the global-shortcut handler: `state` is
`Pressed` or `Released`, discriminated here as two constructors, each
carrying the event identifier. -/
inductive KeyEvent where
  | pressed (id : Nat)
  | released (id : Nat)
deriving DecidableEq, Repr

/-- `wrappedHandler` from `src/routes/+page.svelte`: on `Pressed`, if the id
is already in the `down` set the event is ignored; otherwise the id is added
and `overlayStore.toggle()` is called.  On `Released` the id is removed from
the set.  The set is modelled as a duplicate-free list; the returned flag
records whether `toggle()` was triggered. -/
def wrappedHandler (down : List Nat) (e : KeyEvent) : List Nat × Bool :=
  match e with
  | .pressed id =>
    if id ∈ down then (down, false)
    else (id :: down, true)
  | .released id => (down.filter (fun x => x != id), false)

/-- Folds `wrappedHandler` over an event sequence, collecting for each event
whether it triggered `toggle()`. -/
def runHandler (down : List Nat) : List KeyEvent → List Nat × List Bool
  | [] => (down, [])
  | e :: es =>
    let r := wrappedHandler down e
    let rest := runHandler r.1 es
    (rest.1, r.2 :: rest.2)

/-- C1: the Result Normalizer never rejects (it is a total function on
settled outcomes) and classifies every outcome into exactly one variant: a
rejected call promise with cause `X` yields `transport_error X` (never
`command_error`); a resolved envelope with `success=false` and message `E`
yields `command_error E` carrying no data; a resolved envelope with
`success=true` yields `success` with the payload's `data` field. -/
theorem normalizer_classification {T : Type}
    (e : JSError) (s : CommandSuccess T) (f : CommandFailure) :
    flattenCommandResult
        (tryCatch (Except.error e : Except JSError (CommandResult T)))
      = FlatCommandResult.transport_error e
    ∧ flattenCommandResult (tryCatch (Except.ok (CommandResult.failure f)))
      = (FlatCommandResult.command_error f.error : FlatCommandResult T)
    ∧ flattenCommandResult (tryCatch (Except.ok (CommandResult.success s)))
      = FlatCommandResult.success s.data :=
  ⟨rfl, rfl, rfl⟩

/-- C2: with both callbacks registered, a poll tick whose native read differs
from the recorded value updates the recorded value and fires exactly one of
`onShow`/`onHide` (`onShow` when the new value is visible, `onHide` when
hidden); a tick whose read equals the recorded value changes nothing and
fires nothing; a tick never fires more than one callback; and a second
consecutive read of the same value fires nothing, so callbacks fire at most
once total, on the first transition only. -/
theorem overlay_tick_transition (s : OverlayState) (v : Bool)
    (hShow : s.onShowSet = true) (hHide : s.onHideSet = true) :
    (v ≠ s.isVisible →
      checkVisibility (Except.ok v) s
        = ({ s with isVisible := v },
           [if v then CallbackEvent.onShow else CallbackEvent.onHide]))
    ∧ (v = s.isVisible → checkVisibility (Except.ok v) s = (s, []))
    ∧ (checkVisibility (Except.ok v) s).2.length ≤ 1
    ∧ (checkVisibility (Except.ok v) (checkVisibility (Except.ok v) s).1).2
        = [] := by
  obtain ⟨sv, so, sh⟩ := s
  cases v <;> cases sv <;> simp_all [checkVisibility]

/-- Witness for C2 at a concrete transition: recorded state `false`, read
`true` fires exactly `onShow` and flips the recorded flag. -/
theorem overlay_tick_transition_witness :
    checkVisibility (Except.ok true)
        { isVisible := false, onShowSet := true, onHideSet := true }
      = ({ isVisible := true, onShowSet := true, onHideSet := true },
         [CallbackEvent.onShow]) := by
  have h := (overlay_tick_transition
    { isVisible := false, onShowSet := true, onHideSet := true } true
    rfl rfl).1 (by decide)
  simpa using h

/-- C3: `toggle()` bases its request on the fresh native read, not the
coordinator's cached flag — its issued requests are identical for any two
cached states — and it requests hide when the read is visible, else
show-and-focus; consequently two `toggle()` calls in immediate succession
against a live native layer issue exactly two opposite-direction request
batches, each determined by the native read at that moment. -/
theorem toggle_double_opposite (s t : OverlayState) (native : Bool) :
    (∀ so fo ho : Except JSError Unit,
      (toggle (Except.ok native) so fo ho s).2
        = (toggle (Except.ok native) so fo ho t).2)
    ∧ (toggle (Except.ok native) (.ok ()) (.ok ()) (.ok ()) s).2
        = (if native then [NativeReq.winHide]
           else [NativeReq.winShow, NativeReq.winFocus])
    ∧ (((runToggle native s).2.2 = [NativeReq.winHide]
        ∧ (runToggle (runToggle native s).1 (runToggle native s).2.1).2.2
            = [NativeReq.winShow, NativeReq.winFocus])
      ∨ ((runToggle native s).2.2 = [NativeReq.winShow, NativeReq.winFocus]
        ∧ (runToggle (runToggle native s).1 (runToggle native s).2.1).2.2
            = [NativeReq.winHide])) := by
  refine ⟨fun so fo ho => ?_, ?_, ?_⟩
  · cases so <;> cases fo <;> cases ho <;> cases native <;>
      simp [toggle, showOverlay, hideOverlay]
  · cases native <;> simp [toggle, showOverlay, hideOverlay]
  · cases native <;>
      simp [runToggle, toggle, showOverlay, hideOverlay, applyReq]

/-- C4: a poll tick whose native query throws leaves the recorded state
unchanged and fires nothing; the interval stays scheduled (the loop keeps
running) whatever the lifecycle state; and if the query throws on tick N and
on tick N+1 returns `true` while the recorded state is `false` with `onShow`
registered, the recorded state becomes visible and `onShow` fires exactly
once, no error propagating. -/
theorem poll_error_resilience (e : JSError) (s : OverlayState) :
    checkVisibility (Except.error e) s = (s, [])
    ∧ (∀ st : LoopState,
        (loopStep st (LoopAction.tick (Except.error e))).1.intervalActive
            = st.intervalActive
        ∧ (loopStep st (LoopAction.tick (Except.error e))).1.overlay
            = st.overlay
        ∧ (loopStep st (LoopAction.tick (Except.error e))).2 = [])
    ∧ (s.isVisible = false → s.onShowSet = true →
        checkVisibility (Except.ok true) (checkVisibility (Except.error e) s).1
          = ({ s with isVisible := true }, [CallbackEvent.onShow])) := by
  refine ⟨rfl, fun st => ?_, fun hv hs => ?_⟩
  · simp [loopStep, checkVisibility]
  · obtain ⟨sv, so, sh⟩ := s
    simp_all [checkVisibility]

/-- Witness for C4: the throw-then-recover scenario at a concrete state. -/
theorem poll_error_resilience_witness :
    checkVisibility (Except.ok true)
        (checkVisibility (Except.error ⟨"native query failed"⟩)
          { isVisible := false, onShowSet := true, onHideSet := false }).1
      = ({ isVisible := true, onShowSet := true, onHideSet := false },
         [CallbackEvent.onShow]) := by
  have h := (poll_error_resilience ⟨"native query failed"⟩
    { isVisible := false, onShowSet := true, onHideSet := false }).2.2 rfl rfl
  simpa using h

/-- C5: with the backend unreachable (`isTauri()` false), every command
function fails immediately with the context error and crosses the process
boundary zero times — the context error never reaches the Transport
Adapter's remote call — and the full `defineCommand` pipeline likewise
issues no remote invocation. -/
theorem context_error_failfast {T : Type} (backend : Backend T)
    (command_name : String) (args : JSVal) :
    makeCommandFn false backend command_name args
      = (Except.error tauriContextError, [])
    ∧ (∀ oargs : Option JSVal,
        (defineCommand false backend command_name oargs).2 = []) := by
  refine ⟨rfl, fun oargs => ?_⟩
  cases oargs <;> simp [defineCommand, makeCommandFn]

/-- C6: `show()`, `hide()` and `toggle()` never modify the coordinator's
recorded state or callback slots — they only issue advisory native requests
— and calling `show()` while already visible is a state-level no-op: the
next poll tick (still reading visible) fires no callback. -/
theorem show_advisory_only (so fo ho : Except JSError Unit) (s : OverlayState) :
    (showOverlay so fo s).1 = s
    ∧ (hideOverlay ho s).1 = s
    ∧ (∀ r : Except JSError Bool, (toggle r so fo ho s).1 = s)
    ∧ (s.isVisible = true →
        (checkVisibility (Except.ok true) (showOverlay so fo s).1).2 = []) := by
  have hshow : (showOverlay so fo s).1 = s := by
    cases so <;> cases fo <;> rfl
  refine ⟨hshow, by cases ho <;> rfl, fun r => ?_, fun hv => ?_⟩
  · cases r with
    | error e => rfl
    | ok visible =>
      cases visible <;>
        simp [toggle, showOverlay, hideOverlay] <;>
        (first | (cases ho <;> rfl) | (cases so <;> cases fo <;> rfl))
  · rw [hshow]
    simp [checkVisibility, hv]

/-- Witness for C6: show while visible, next tick fires nothing. -/
theorem show_advisory_only_witness :
    (checkVisibility (Except.ok true)
        (showOverlay (Except.ok ()) (Except.ok ())
          { isVisible := true, onShowSet := true, onHideSet := true }).1).2
      = [] :=
  (show_advisory_only (Except.ok ()) (Except.ok ()) (Except.ok ())
    { isVisible := true, onShowSet := true, onHideSet := true }).2.2.2 rfl

/-- C7: the Shortcut Dispatcher ignores a pressed event whose identifier is
already down, otherwise records it and triggers toggle; a released event
removes the identifier regardless of prior membership; and the sequence
[pressed 1, pressed 1, released 1, pressed 1] triggers toggle exactly on the
1st and 4th events. -/
theorem shortcut_dedup (down : List Nat) (id : Nat) :
    (id ∈ down → wrappedHandler down (KeyEvent.pressed id) = (down, false))
    ∧ (id ∉ down →
        wrappedHandler down (KeyEvent.pressed id) = (id :: down, true))
    ∧ wrappedHandler down (KeyEvent.released id)
        = (down.filter (fun x => x != id), false)
    ∧ (runHandler [] [KeyEvent.pressed 1, KeyEvent.pressed 1,
          KeyEvent.released 1, KeyEvent.pressed 1]).2
        = [true, false, false, true] := by
  refine ⟨fun h => ?_, fun h => ?_, rfl, by decide⟩
  · simp [wrappedHandler, h]
  · simp [wrappedHandler, h]

/-- Witness for C7: a repeat press of a down identifier is ignored, a fresh
press triggers toggle. -/
theorem shortcut_dedup_witness :
    wrappedHandler [1] (KeyEvent.pressed 1) = ([1], false)
    ∧ wrappedHandler [] (KeyEvent.pressed 1) = ([1], true) :=
  ⟨(shortcut_dedup [1] 1).1 (by decide),
   (shortcut_dedup [] 1).2.1 (by decide)⟩

/-- C8: for a command executed with no argument and with an explicit
`undefined` argument, the pipeline behaves identically — same remote
invocation (without an argument envelope, when in a Tauri context) and same
normalized result — for every backend behavior. -/
theorem void_arg_execute_identical {T : Type} (isTauri : Bool)
    (backend : Backend T) (command_name : String) :
    defineCommand isTauri backend command_name none
      = defineCommand isTauri backend command_name (some JSVal.undef)
    ∧ (defineCommand true backend command_name none).2
        = [InvokeEvent.invoke command_name none] :=
  ⟨rfl, rfl⟩

/-- C9 counterexample: `destroy()` called before the asynchronous startup
has registered the interval is a no-op (`intervalId` is still null), so the
interval is registered afterwards anyway and a later tick still runs —
contradicting "no further ticks run after destroy, regardless of when
destroy is called relative to startup". -/
theorem destroy_startup_race_counterexample :
    (loopStep initLoopState LoopAction.destroy).1 = initLoopState
    ∧ ((loopStep (loopStep initLoopState LoopAction.destroy).1
          (LoopAction.finishStartup 7 (Except.ok false))).1).intervalActive
        = true
    ∧ ((loopStep
          ((loopStep (loopStep initLoopState LoopAction.destroy).1
            (LoopAction.finishStartup 7 (Except.ok false))).1)
          (LoopAction.tick (Except.ok true))).1).overlay.isVisible = true := by
  refine ⟨rfl, rfl, rfl⟩

/-- C9 (amended): once the asynchronous startup has registered the interval
(`intervalId` set), `destroy()` unschedules the timer, no further tick runs
or fires callbacks, and a second or later `destroy()` leaves the identical
stopped state with no error. -/
theorem destroy_after_startup (st : LoopState)
    (hdone : st.startupDone = true) (hid : st.intervalId.isSome = true) :
    ((loopStep st LoopAction.destroy).1).intervalActive = false
    ∧ loopStep (loopStep st LoopAction.destroy).1 LoopAction.destroy
        = ((loopStep st LoopAction.destroy).1, [])
    ∧ (∀ read, loopStep (loopStep st LoopAction.destroy).1 (LoopAction.tick read)
        = ((loopStep st LoopAction.destroy).1, [])) := by
  obtain ⟨ov, oid, oact, odone⟩ := st
  cases oid with
  | none => simp at hid
  | some i =>
    refine ⟨rfl, by simp [loopStep], fun read => by simp [loopStep]⟩

/-- Witness for C9 (amended): destroy after a completed startup stops ticks. -/
theorem destroy_after_startup_witness :
    loopStep (loopStep
        { overlay := { isVisible := false, onShowSet := false, onHideSet := false }
          intervalId := some 3, intervalActive := true, startupDone := true }
        LoopAction.destroy).1
      (LoopAction.tick (Except.ok true))
    = ((loopStep
        { overlay := { isVisible := false, onShowSet := false, onHideSet := false }
          intervalId := some 3, intervalActive := true, startupDone := true }
        LoopAction.destroy).1, []) :=
  (destroy_after_startup
    { overlay := { isVisible := false, onShowSet := false, onHideSet := false }
      intervalId := some 3, intervalActive := true, startupDone := true }
    rfl rfl).2.2 (Except.ok true)

/-- C10: when the native visibility read inside `toggle()` throws, the call
still returns normally with the coordinator state unchanged and issues no
show or hide request to the native layer. -/
theorem toggle_read_error_absorbed (e : JSError)
    (so fo ho : Except JSError Unit) (s : OverlayState) :
    toggle (Except.error e) so fo ho s = (s, []) :=
  rfl

end Swii
